import Mathlib

/-!
Verification of the column-pairing and scoring logic shared by the three
utilities of the MicrosoftForm-Report-Student repository
(`calculate_grades.py`, `create_answer_key.py`, `generate_reports.py`).

Tables are modelled as ordered lists of named columns; a cell is either
missing (pandas NaN), a text value, or a number (the CSV reader parses
numeric text into numbers before the scripts see it).
-/

namespace MSForms

/-- Cell of a response table: missing value (NaN), raw text, or a number. -/
inductive Cell where
  | na : Cell
  | str : String → Cell
  | num : ℚ → Cell
deriving DecidableEq

/-- Embeds `pd.to_numeric(..., errors='coerce')`: numbers pass through,
NaN stays NaN; remaining text coerces to NaN (numeric text was already
parsed into numbers by the CSV reader). -/
def toNumeric : Cell → Option ℚ
  | Cell.num q => some q
  | _ => none

/-- One named column of the table, in original order. -/
structure Column where
  name : String
  cells : List Cell
deriving DecidableEq

/-- Prefix of a points column, `PREFISSO_POINTS` in `calculate_grades.py`. -/
def PREFISSO_POINTS : String := "Points - "

/-- Prefix of a derived-score column, `PREFISSO_CALCOLO`. -/
def PREFISSO_CALCOLO : String := "CALCOLO - "

/-- Prefix of a feedback column (`FEEDBACK_PREFIX` in `create_answer_key.py`,
renamed here). -/
def PREFISSO_FEEDBACK : String := "Feedback - "

/-- Name of the summed-score column. -/
def NOME_COLONNA_FINALE : String := "Punteggio_Finale_Corretto"

/-- Name of the grade column. -/
def NOME_COLONNA_VOTO : String := "Voto_su_10"

/-- `cond_vuota` of `calculate_grades.py` line 83: the answer is NaN or the
empty string (no whitespace stripping happens there). -/
def cond_vuota : Cell → Bool
  | Cell.na => true
  | Cell.str s => s == ""
  | Cell.num _ => false

/-- `cond_giusta` line 86: the numeric points value equals 1. -/
def cond_giusta (points : Cell) : Bool := toNumeric points == some (1 : ℚ)

/-- `cond_sbagliata` line 89: answer not blank and numeric points value 0. -/
def cond_sbagliata (risposta points : Cell) : Bool :=
  !cond_vuota risposta && (toNumeric points == some (0 : ℚ))

/-- The `np.select` of lines 95-99: conditions tried in order blank, correct,
wrong, with default 0. -/
def punteggio (risposta points : Cell) : ℚ :=
  if cond_vuota risposta then 0
  else if cond_giusta points then 1
  else if cond_sbagliata risposta points then -(1/4)
  else 0

/-- C1: per respondent the derived score follows the three-way rule with blank
taking precedence: a blank answer scores 0 regardless of the points value
(even points 1); otherwise points 1 scores 1, points 0 scores -0.25, and any
other (missing or unparseable) points value falls through to 0. -/
theorem C1_blank_precedence_three_way_rule (r p : Cell) :
    (cond_vuota r = true → punteggio r p = 0) ∧
    (cond_vuota r = false → toNumeric p = some 1 → punteggio r p = 1) ∧
    (cond_vuota r = false → toNumeric p = some 0 → punteggio r p = -(1/4)) ∧
    (cond_vuota r = false → toNumeric p ≠ some 1 → toNumeric p ≠ some 0 →
      punteggio r p = 0) := by
  refine ⟨fun hv => ?_, fun hv h1 => ?_, fun hv h0 => ?_, fun hv h1 h0 => ?_⟩
  · simp [punteggio, hv]
  · simp [punteggio, hv, cond_giusta, h1]
  · simp [punteggio, hv, cond_giusta, cond_sbagliata, h0]
  · simp [punteggio, hv, cond_giusta, cond_sbagliata, h1, h0]

/-- C1 witness: the four branches at concrete cells, including a blank answer
carrying points 1 that still scores 0. -/
theorem C1_blank_precedence_three_way_rule_witness :
    punteggio (Cell.str "") (Cell.num 1) = 0 ∧
    punteggio (Cell.str "B") (Cell.num 1) = 1 ∧
    punteggio (Cell.str "A") (Cell.num 0) = -(1/4) ∧
    punteggio (Cell.str "A") Cell.na = 0 :=
  ⟨(C1_blank_precedence_three_way_rule (Cell.str "") (Cell.num 1)).1 (by decide),
   (C1_blank_precedence_three_way_rule (Cell.str "B") (Cell.num 1)).2.1
     (by decide) (by decide),
   (C1_blank_precedence_three_way_rule (Cell.str "A") (Cell.num 0)).2.2.1
     (by decide) (by decide),
   (C1_blank_precedence_three_way_rule (Cell.str "A") Cell.na).2.2.2
     (by decide) (by decide) (by decide)⟩

/-- The while-loop of `calcola_punteggi_e_voti` lines 58-114: a left-to-right
scan with a cursor advancing by 2 on a matched (question, points) pair and by
1 otherwise.  Returns `colonne_finali_list` (all input columns, with a derived
score column inserted after each matched pair) and `colonne_calcolate_list`
(the derived score columns only). -/
def scanColumns : List Column → List Column × List Column
  | [] => ([], [])
  | [c] => ([c], [])
  | c :: p :: rest =>
    if p.name == PREFISSO_POINTS ++ c.name then
      let sc : Column :=
        { name := PREFISSO_CALCOLO ++ c.name,
          cells := List.zipWith (fun a b => Cell.num (punteggio a b)) c.cells p.cells }
      let r := scanColumns rest
      (c :: p :: sc :: r.1, sc :: r.2)
    else
      let r := scanColumns (p :: rest)
      (c :: r.1, r.2)

/-- `is_correct = (points_series == 1)` in `create_answer_key.py` line 90. -/
def isOnePoint (p : Cell) : Bool := toNumeric p == some (1 : ℚ)

/-- First index holding `true`, if any. -/
def firstTrueIdx : List Bool → Option Nat
  | [] => none
  | true :: _ => some 0
  | false :: bs => (firstTrueIdx bs).map (· + 1)

/-- `Series.idxmax` on a boolean series with default integer index: the first
`True` position, position 0 when every entry is `False`, and an error
(modelled as `none`) on an empty series. -/
def idxmax (bs : List Bool) : Option Nat :=
  match bs with
  | [] => none
  | _ :: _ => some ((firstTrueIdx bs).getD 0)

/-- Lines 83-107 of `create_answer_key.py`: `idxmax` over the points==1 flags,
an explicit check that the found position really holds a 1, and the
`except` path leaving the entry as the empty string.  On success the answer
cell is taken verbatim from that respondent's row. -/
def findCorrectAnswer (answers points : List Cell) : Cell :=
  let isCorrect := points.map isOnePoint
  match idxmax isCorrect with
  | none => Cell.str ""
  | some i => if isCorrect.getD i false then answers.getD i Cell.na else Cell.str ""

/-- Whether the key builder takes the success branch (`Answer FOUND` printed,
`answers_found` incremented) for a question with the given points column. -/
def answerFound (points : List Cell) : Bool :=
  let isCorrect := points.map isOnePoint
  match idxmax isCorrect with
  | none => false
  | some i => isCorrect.getD i false

/-- The while-loop of `generate_automatic_key` lines 71-123: same adjacency
match as the scorer, additionally consuming an adjacent feedback column, and
collecting one (question, inferred answer) entry per matched pair. -/
def keyScan : List Column → List (String × Cell)
  | [] => []
  | [_] => []
  | c :: p :: rest =>
    if p.name == PREFISSO_POINTS ++ c.name then
      let entry := (c.name, findCorrectAnswer c.cells p.cells)
      match rest with
      | [] => [entry]
      | f :: rest2 =>
        if f.name == PREFISSO_FEEDBACK ++ c.name then entry :: keyScan rest2
        else entry :: keyScan (f :: rest2)
    else
      keyScan (p :: rest)

/-- `find_question_list` of `generate_reports.py` lines 74-91: a column is a
question column when its points column exists anywhere in the column-name set
and the column itself does not start with a special prefix. -/
def find_question_list (names : List String) : List String :=
  names.filter (fun c =>
    names.contains (PREFISSO_POINTS ++ c) &&
    !(c.startsWith PREFISSO_POINTS || c.startsWith PREFISSO_CALCOLO ||
      c.startsWith PREFISSO_FEEDBACK))

/-- Modelled from the spec: "a Points column must immediately follow its
Question column in column order".  Decides whether some column is immediately
followed by its points column; used to compare the three components'
recognition rules against the spec's adjacency rule. -/
def hasAdjacentPair : List String → Bool
  | [] => false
  | [_] => false
  | c :: p :: rest => (p == PREFISSO_POINTS ++ c) || hasAdjacentPair (p :: rest)

theorem scanColumns_calcs_ne_nil (cols : List Column) :
    (scanColumns cols).2 ≠ [] ↔ hasAdjacentPair (cols.map Column.name) = true := by
  induction cols with
  | nil => simp [scanColumns, hasAdjacentPair]
  | cons c rest ih =>
    cases rest with
    | nil => simp [scanColumns, hasAdjacentPair]
    | cons p rest2 =>
      cases hb : (p.name == PREFISSO_POINTS ++ c.name) with
      | false => simpa [scanColumns, hasAdjacentPair, hb] using ih
      | true => simp [scanColumns, hasAdjacentPair, hb]

theorem keyScan_ne_nil (cols : List Column) :
    keyScan cols ≠ [] ↔ hasAdjacentPair (cols.map Column.name) = true := by
  induction cols with
  | nil => simp [keyScan, hasAdjacentPair]
  | cons c rest ih =>
    cases rest with
    | nil => simp [keyScan, hasAdjacentPair]
    | cons p rest2 =>
      cases hb : (p.name == PREFISSO_POINTS ++ c.name) with
      | false => simpa [keyScan, hasAdjacentPair, hb] using ih
      | true =>
        cases rest2 with
        | nil => simp [keyScan, hasAdjacentPair, hb]
        | cons f rest3 =>
          cases hf : (f.name == PREFISSO_FEEDBACK ++ c.name) <;>
            simp [keyScan, hasAdjacentPair, hb, hf]

/-- C2 counterexample: with columns `["Q1", "X", "Points - Q1"]` the points
column is present but not adjacent, so the scorer and the key builder
recognize no group, yet the report generator's `find_question_list` does
recognize `Q1` — recognition is not positional adjacency in every component. -/
theorem C2_nonadjacent_pair_counterexample :
    find_question_list ["Q1", "X", "Points - Q1"] = ["Q1"] ∧
    (scanColumns [⟨"Q1", [Cell.str "A"]⟩, ⟨"X", [Cell.str "y"]⟩,
      ⟨"Points - Q1", [Cell.num 1]⟩]).2 = [] ∧
    keyScan [⟨"Q1", [Cell.str "A"]⟩, ⟨"X", [Cell.str "y"]⟩,
      ⟨"Points - Q1", [Cell.num 1]⟩] = [] := by decide

/-- C2 amended: the scorer and the key builder recognize a group exactly when
some points column immediately follows its question column, while the report
generator recognizes a question column whenever its points column exists
anywhere in the column-name set and the column itself does not carry a
points/score/feedback prefix. -/
theorem C2_recognition_rules (cols : List Column) (names : List String) (c : String) :
    ((scanColumns cols).2 ≠ [] ↔ hasAdjacentPair (cols.map Column.name) = true) ∧
    (keyScan cols ≠ [] ↔ hasAdjacentPair (cols.map Column.name) = true) ∧
    (c ∈ find_question_list names ↔
      c ∈ names ∧ (PREFISSO_POINTS ++ c) ∈ names ∧
      ¬(c.startsWith PREFISSO_POINTS = true ∨ c.startsWith PREFISSO_CALCOLO = true ∨
        c.startsWith PREFISSO_FEEDBACK = true)) := by
  refine ⟨scanColumns_calcs_ne_nil cols, keyScan_ne_nil cols, ?_⟩
  rw [find_question_list, List.mem_filter]
  simp only [List.contains, List.elem_eq_mem, Bool.and_eq_true, Bool.not_eq_true',
    Bool.or_eq_false_iff, decide_eq_true_eq, Bool.not_eq_true]
  constructor
  · rintro ⟨h1, h2, ⟨h3, h4⟩, h5⟩
    refine ⟨h1, h2, ?_⟩
    rintro (h | h | h)
    · rw [h] at h3; cases h3
    · rw [h] at h4; cases h4
    · rw [h] at h5; cases h5
  · rintro ⟨h1, h2, h3⟩
    simp only [not_or, Bool.not_eq_true] at h3
    exact ⟨h1, h2, ⟨h3.1, h3.2.1⟩, h3.2.2⟩

/-- Round a rational to the nearest integer, ties to even, as `Series.round`
does for the values occurring here. -/
def roundHalfEven (q : ℚ) : ℤ :=
  if q - ⌊q⌋ < 1/2 then ⌊q⌋
  else if (1 : ℚ)/2 < q - ⌊q⌋ then ⌊q⌋ + 1
  else if ⌊q⌋ % 2 = 0 then ⌊q⌋ else ⌊q⌋ + 1

/-- `.round(2)`: two decimal places. -/
def round2 (q : ℚ) : ℚ := (roundHalfEven (q * 100) : ℚ) / 100

/-- Lines 128-133 of `calcola_punteggi_e_voti`: the grade of a respondent with
summed score `s` over `n` recognized questions — clip at 0, divide by the
maximum score `n`, scale to 10, round to 2 decimals. -/
def voto (s : ℚ) (n : Nat) : ℚ := round2 (max s 0 / (n : ℚ) * 10)

/-- Row `j`'s summed derived score, `df_somma_calcolata.sum(axis=1, skipna=True)`:
missing cells contribute 0. -/
def sumRow (calcs : List Column) (j : Nat) : ℚ :=
  (calcs.map (fun c => (toNumeric (c.cells.getD j Cell.na)).getD 0)).sum

/-- Number of rows of the table (length of the shared index). -/
def numRows : List Column → Nat
  | [] => 0
  | c :: _ => c.cells.length

/-- `df[name] = series` in pandas: replace the column in place when the name
exists, otherwise append it at the end. -/
def assignColumn (t : List Column) (n : String) (vals : List Cell) : List Column :=
  if t.any (fun c => c.name == n) then
    t.map (fun c => if c.name == n then { name := n, cells := vals } else c)
  else t ++ [{ name := n, cells := vals }]

/-- Phases 2-4 of `calcola_punteggi_e_voti` after the CSV has been read and
cleaned: scan the columns, and when derived columns exist append the summed
score and the grade; `none` models the caught exception of `pd.concat` on an
empty list, the only way no output file is written. -/
def scorerRun (cols : List Column) : Option (List Column) :=
  let scan := scanColumns cols
  if scan.1.isEmpty then none
  else if scan.2.isEmpty then some scan.1
  else
    let nR := numRows cols
    let sums := (List.range nR).map (fun j => Cell.num (sumRow scan.2 j))
    let step1 := assignColumn scan.1 NOME_COLONNA_FINALE sums
    let voti := (List.range nR).map (fun j =>
      Cell.num (voto (sumRow scan.2 j) scan.2.length))
    some (assignColumn step1 NOME_COLONNA_VOTO voti)

/-- The cells of the first column carrying a given name, if any. -/
def colValues (t : List Column) (n : String) : Option (List Cell) :=
  (t.find? (fun c => c.name == n)).map Column.cells

theorem roundHalfEven_mono {q r : ℚ} (h : q ≤ r) :
    roundHalfEven q ≤ roundHalfEven r := by
  have hf : (⌊q⌋ : ℤ) ≤ ⌊r⌋ := Int.floor_le_floor h
  rcases eq_or_lt_of_le hf with heq | hlt
  · have hfr : q - (⌊q⌋ : ℚ) ≤ r - (⌊q⌋ : ℚ) := by linarith
    unfold roundHalfEven
    rw [← heq]
    split_ifs <;> first | omega | linarith
  · have h1 : roundHalfEven q ≤ ⌊q⌋ + 1 := by
      unfold roundHalfEven; split_ifs <;> omega
    have h2 : (⌊r⌋ : ℤ) ≤ roundHalfEven r := by
      unfold roundHalfEven; split_ifs <;> omega
    omega

theorem round2_mono {q r : ℚ} (h : q ≤ r) : round2 q ≤ round2 r := by
  unfold round2
  have := roundHalfEven_mono (mul_le_mul_of_nonneg_right h (by norm_num : (0:ℚ) ≤ 100))
  have hc : ((roundHalfEven (q * 100) : ℤ) : ℚ) ≤ ((roundHalfEven (r * 100) : ℤ) : ℚ) := by
    exact_mod_cast this
  linarith

theorem scanColumns_fst_ne_nil {cols : List Column} (h : cols ≠ []) :
    (scanColumns cols).1 ≠ [] := by
  match cols with
  | [] => exact absurd rfl h
  | [c] => simp [scanColumns]
  | c :: p :: rest =>
    by_cases hb : (p.name == PREFISSO_POINTS ++ c.name) = true
    · simp [scanColumns, hb]
    · simp [scanColumns, hb]

theorem find_map_replace (t : List Column) (n : String) (vals : List Cell)
    (h : t.any (fun c => c.name == n) = true) :
    (t.map (fun c => if c.name == n then { name := n, cells := vals } else c)).find?
      (fun c => c.name == n) = some { name := n, cells := vals } := by
  induction t with
  | nil => cases h
  | cons c rest ih =>
    by_cases hc : (c.name == n) = true
    · simp [List.find?, hc]
    · simp only [List.any_cons, Bool.or_eq_true] at h
      rcases h with h | h
    -- head cannot match
      · exact absurd h hc
      · simpa [List.find?, hc] using ih h

theorem find_append_new (t : List Column) (n : String) (vals : List Cell)
    (h : t.any (fun c => c.name == n) = false) :
    (t ++ [({ name := n, cells := vals } : Column)]).find? (fun c => c.name == n) =
      some { name := n, cells := vals } := by
  induction t with
  | nil => simp [List.find?]
  | cons c rest ih =>
    simp only [List.any_cons, Bool.or_eq_false_iff] at h
    simp only [List.cons_append, List.find?, h.1]
    exact ih h.2

theorem colValues_assignColumn (t : List Column) (n : String) (vals : List Cell) :
    colValues (assignColumn t n vals) n = some vals := by
  unfold colValues assignColumn
  by_cases h : t.any (fun c => c.name == n) = true
  · rw [if_pos h, find_map_replace t n vals h]
    rfl
  · rw [if_neg h, find_append_new t n vals (by simpa using h)]
    rfl

theorem voto_nonpos {s : ℚ} (n : Nat) (h : s ≤ 0) : voto s n = 0 := by
  unfold voto
  rw [max_eq_right h]
  norm_num [round2, roundHalfEven]

theorem voto_mono {s s' : ℚ} {n : Nat} (hn : 0 < n) (h : s ≤ s') :
    voto s n ≤ voto s' n := by
  unfold voto
  apply round2_mono
  have hn' : (0 : ℚ) < n := by exact_mod_cast hn
  have h1 : max s 0 ≤ max s' 0 := max_le_max h le_rfl
  have h2 : max s 0 / (n : ℚ) ≤ max s' 0 / (n : ℚ) := (div_le_div_iff_of_pos_right hn').mpr h1
  exact mul_le_mul_of_nonneg_right h2 (by norm_num)

/-- Example table used to instantiate the grade theorem. -/
def tavolaC3 : List Column :=
  [{ name := "Q1", cells := [Cell.str "B"] },
   { name := "Points - Q1", cells := [Cell.num 1] }]

/-- C3: when at least one question group is recognized, the grade column the
scorer writes holds, for every respondent, `round2` of the clipped summed
derived score divided by the question count and scaled by 10; that grade is
monotone in the summed score for a fixed question count, and a respondent
whose summed score is at most 0 receives grade 0. -/
theorem C3_grade_formula_monotone_clipped (cols : List Column) (n : Nat) (s s' : ℚ) :
    ((scanColumns cols).2 ≠ [] →
      ∃ out, scorerRun cols = some out ∧
        colValues out NOME_COLONNA_VOTO =
          some ((List.range (numRows cols)).map (fun j =>
            Cell.num (voto (sumRow (scanColumns cols).2 j)
              (scanColumns cols).2.length)))) ∧
    (0 < n → s ≤ s' → voto s n ≤ voto s' n) ∧
    (s ≤ 0 → voto s n = 0) := by
  refine ⟨?_, fun hn h => voto_mono hn h, fun h => voto_nonpos n h⟩
  intro h2
  have hcols : cols ≠ [] := by
    intro hnil
    rw [hnil] at h2
    exact h2 rfl
  have h1 : (scanColumns cols).1 ≠ [] := scanColumns_fst_ne_nil hcols
  have e1 : (scanColumns cols).1.isEmpty = false := by
    cases hh : (scanColumns cols).1 with
    | nil => exact absurd hh h1
    | cons a b => rfl
  have e2 : (scanColumns cols).2.isEmpty = false := by
    cases hh : (scanColumns cols).2 with
    | nil => exact absurd hh h2
    | cons a b => rfl
  refine ⟨assignColumn (assignColumn (scanColumns cols).1 NOME_COLONNA_FINALE
      ((List.range (numRows cols)).map (fun j => Cell.num (sumRow (scanColumns cols).2 j))))
      NOME_COLONNA_VOTO
      ((List.range (numRows cols)).map (fun j =>
        Cell.num (voto (sumRow (scanColumns cols).2 j) (scanColumns cols).2.length))),
    ?_, colValues_assignColumn _ _ _⟩
  simp [scorerRun, e1, e2]

/-- C3 witness: the single-question table and the concrete scores -1 ≤ 1. -/
theorem C3_grade_formula_monotone_clipped_witness :
    (∃ out, scorerRun tavolaC3 = some out ∧
      colValues out NOME_COLONNA_VOTO =
        some ((List.range (numRows tavolaC3)).map (fun j =>
          Cell.num (voto (sumRow (scanColumns tavolaC3).2 j)
            (scanColumns tavolaC3).2.length)))) ∧
    voto (-1) 2 ≤ voto 1 2 ∧ voto (-1) 2 = 0 :=
  ⟨(C3_grade_formula_monotone_clipped tavolaC3 2 (-1) 1).1 (by decide),
   (C3_grade_formula_monotone_clipped tavolaC3 2 (-1) 1).2.1 (by norm_num) (by norm_num),
   (C3_grade_formula_monotone_clipped tavolaC3 2 (-1) 1).2.2 (by norm_num)⟩

theorem firstTrueIdx_none {bs : List Bool} (h : ∀ b ∈ bs, b = false) :
    firstTrueIdx bs = none := by
  induction bs with
  | nil => rfl
  | cons b rest ih =>
    have hb := h b (List.mem_cons_self b rest)
    subst hb
    simp [firstTrueIdx, ih (fun x hx => h x (List.mem_cons_of_mem _ hx))]

theorem firstTrueIdx_getD {bs : List Bool} {i : Nat} (h : firstTrueIdx bs = some i) :
    bs.getD i false = true := by
  induction bs generalizing i with
  | nil => cases h
  | cons b rest ih =>
    cases b with
    | true =>
      simp only [firstTrueIdx, Option.some.injEq] at h
      subst h
      rfl
    | false =>
      simp only [firstTrueIdx, Option.map_eq_some'] at h
      obtain ⟨j, hj, hij⟩ := h
      subst hij
      simpa using ih hj

theorem findCorrectAnswer_no_one {answers points : List Cell}
    (h : ∀ p ∈ points, isOnePoint p = false) :
    findCorrectAnswer answers points = Cell.str "" ∧ answerFound points = false := by
  have hnone : firstTrueIdx (points.map isOnePoint) = none := by
    apply firstTrueIdx_none
    intro b hb
    rw [List.mem_map] at hb
    obtain ⟨p, hp, rfl⟩ := hb
    exact h p hp
  cases points with
  | nil => exact ⟨rfl, rfl⟩
  | cons p rest =>
    have hhead : isOnePoint p = false := h p (List.mem_cons_self p rest)
    rw [List.map_cons, hhead] at hnone
    constructor
    · unfold findCorrectAnswer idxmax
      simp [hhead, hnone]
    · unfold answerFound idxmax
      simp [hhead, hnone]

theorem findCorrectAnswer_first_one {answers points : List Cell} {i : Nat}
    (h : firstTrueIdx (points.map isOnePoint) = some i) :
    findCorrectAnswer answers points = answers.getD i Cell.na ∧
      answerFound points = true := by
  cases points with
  | nil => cases h
  | cons p rest =>
    have hget := firstTrueIdx_getD h
    rw [List.map_cons] at h hget
    constructor
    · simp only [findCorrectAnswer, idxmax, List.map_cons, h, Option.getD_some]
      rw [if_pos hget]
    · simp only [answerFound, idxmax, List.map_cons, h, Option.getD_some]
      exact hget

/-- C4: for a recognized question group the key builder returns the answer of
the first respondent (in row order) whose points value is exactly 1; when no
respondent has points value 1 the presence check fires, the entry is the
empty string, and the success branch (`Answer FOUND`) is not taken. -/
theorem C4_key_first_correct (answers points : List Cell) (i : Nat) :
    ((∀ p ∈ points, toNumeric p ≠ some 1) →
      findCorrectAnswer answers points = Cell.str "" ∧ answerFound points = false) ∧
    (firstTrueIdx (points.map isOnePoint) = some i →
      findCorrectAnswer answers points = answers.getD i Cell.na ∧
        answerFound points = true) := by
  constructor
  · intro h
    apply findCorrectAnswer_no_one
    intro p hp
    simp [isOnePoint, beq_eq_false_iff_ne]
    exact h p hp
  · exact fun h => findCorrectAnswer_first_one h

/-- Answers used in the key-builder witness. -/
def risposteC4 : List Cell := [Cell.str "a", Cell.str "b", Cell.str "c", Cell.str "d"]

/-- Points column with the first 1 at position 2. -/
def puntiC4 : List Cell := [Cell.num 0, Cell.num 0, Cell.num 1, Cell.na]

/-- Points column with no 1 at all. -/
def puntiC4' : List Cell := [Cell.num 0, Cell.num 0, Cell.num 0]

/-- C4 witness: points `[0, 0, 1, NaN]` select the answer at position 2, and
points `[0, 0, 0]` leave the entry blank with no found flag. -/
theorem C4_key_first_correct_witness :
    (findCorrectAnswer risposteC4 puntiC4 = risposteC4.getD 2 Cell.na ∧
      answerFound puntiC4 = true) ∧
    (findCorrectAnswer risposteC4 puntiC4' = Cell.str "" ∧
      answerFound puntiC4' = false) :=
  ⟨(C4_key_first_correct risposteC4 puntiC4 2).2 (by decide),
   (C4_key_first_correct risposteC4 puntiC4' 0).1 (by decide)⟩

/-- C10: the key builder can emit a blank key entry although a respondent has
points value 1 — the answer cell of the first qualifying respondent is taken
verbatim, here NaN, while the question is still counted with the success
branch taken (`Answer FOUND`). -/
theorem C10_key_entry_blank_despite_found :
    keyScan [{ name := "Q1", cells := [Cell.na] },
      { name := "Points - Q1", cells := [Cell.num 1] }] = [("Q1", Cell.na)] ∧
    answerFound [Cell.num 1] = true ∧
    isOnePoint (Cell.num 1) = true := by decide

/-- `pd.to_numeric(student_data.get(calc_col_name), errors='coerce')` and the
comparison `calculated_score < 1` of line 155: a NaN score compares false. -/
def scoreLtOne : Option ℚ → Bool
  | some q => decide (q < 1)
  | none => false

/-- `correct_answer and pd.notna(correct_answer)` of line 160: NaN is truthy
in Python but fails `notna`; the empty string and the number 0 are falsy. -/
def truthyNotNa : Cell → Bool
  | Cell.na => false
  | Cell.str s => !(s == "")
  | Cell.num q => !(q == 0)

/-- `answer_key.get(question_text)`: the key dictionary lookup of line 156. -/
def lookupKey (key : List (String × Cell)) (q : String) : Option Cell :=
  (key.find? (fun e => e.1 == q)).map (fun e => e.2)

/-- Lines 153-167 of `create_student_pdf`: the correct answer is appended to
the story exactly when the score is numerically below 1, the key dictionary
is non-empty, and the entry found for the question is truthy and not NaN. -/
def showCorrectAnswer (calcScore : Option ℚ) (key : List (String × Cell))
    (q : String) : Bool :=
  if scoreLtOne calcScore && !key.isEmpty then
    match lookupKey key q with
    | some v => truthyNotNa v
    | none => false
  else false

/-- Lines 144-147 of `create_student_pdf`: the "(No answer given)" test is
`pd.isna(x) or str(x).strip() == ''`; a stripped string is empty exactly when
every character is whitespace, and the text of a number is never empty. -/
def reportIsBlank : Cell → Bool
  | Cell.na => true
  | Cell.str s => s.data.all (fun ch => ch.isWhitespace)
  | Cell.num _ => false

/-- C5 counterexample: a derived score of 0 — the score every blank answer
receives — still triggers the correct-answer block whenever a non-blank key
entry exists, because the code tests `score < 1`, not `score == -0.25`. -/
theorem C5_shown_for_blank_zero_score :
    showCorrectAnswer (some 0) [("Q1", Cell.str "B")] "Q1" = true ∧
    punteggio (Cell.str "") (Cell.num 0) = 0 := by decide

/-- C5 amended: the correct answer is shown iff the derived score is present
and numerically below 1 (so for score -0.25 and also for score 0, blank
answers included), the key dictionary is non-empty, and the key entry found
for the question is non-NaN and truthy; a missing score never shows it. -/
theorem C5_shown_iff_score_lt_one (score : Option ℚ) (key : List (String × Cell))
    (q : String) :
    showCorrectAnswer score key q = true ↔
      (∃ v, score = some v ∧ v < 1) ∧ key ≠ [] ∧
      (∃ c, lookupKey key q = some c ∧ truthyNotNa c = true) := by
  unfold showCorrectAnswer
  rcases score with _ | v
  · simp [scoreLtOne]
  · rcases key with _ | ⟨e, rest⟩
    · simp [scoreLtOne]
    · by_cases hv : v < 1
      · rcases hl : lookupKey (e :: rest) q with _ | c
        · simp [scoreLtOne, hv, hl]
        · simp [scoreLtOne, hv, hl]
      · simp [scoreLtOne, hv]

/-- C6 counterexample: an answer consisting only of whitespace is not
classified as blank by the scorer — with points 0 it scores -0.25, not 0. -/
theorem C6_whitespace_not_blank_in_scorer :
    cond_vuota (Cell.str " ") = false ∧
    punteggio (Cell.str " ") (Cell.num 0) = -(1/4) := by
  have h1 : cond_vuota (Cell.str " ") = false := by decide
  have h2 : cond_giusta (Cell.num 0) = false := by decide
  have h3 : cond_sbagliata (Cell.str " ") (Cell.num 0) = true := by decide
  exact ⟨h1, by simp [punteggio, h1, h2, h3]⟩

/-- C6 amended: the scorer classifies an answer as blank exactly when the
value is NaN or is exactly the empty string, with no whitespace
normalization; only the report generator's display-level blank test strips
whitespace. -/
theorem C6_blank_exactly_nan_or_empty (c : Cell) (s : String) :
    (cond_vuota c = true ↔ c = Cell.na ∨ c = Cell.str "") ∧
    cond_vuota (Cell.str s) = (s == "") ∧
    reportIsBlank (Cell.str " ") = true := by
  refine ⟨?_, rfl, by decide⟩
  cases c <;> simp [cond_vuota]

/-- Outcome of one command-line invocation: the process exit status, whether
the primary output was produced, and whether a usage/error message was
printed. -/
structure CliRun where
  exitCode : Nat
  wroteOutput : Bool
  printedError : Bool
deriving DecidableEq

/-- The `__main__` block of `calculate_grades.py` plus the guard clauses of
`calcola_punteggi_e_voti`: a missing argument or a nonexistent input file
prints a message and returns normally — the script never calls `sys.exit`,
so the process status is 0 on every path (exceptions are caught too). -/
def calculate_grades_main (argc : Nat) (fileInputExists : Bool) (cols : List Column) :
    CliRun :=
  if argc < 2 then { exitCode := 0, wroteOutput := false, printedError := true }
  else if !fileInputExists then { exitCode := 0, wroteOutput := false, printedError := true }
  else
    match scorerRun cols with
    | some _ => { exitCode := 0, wroteOutput := true, printedError := false }
    | none => { exitCode := 0, wroteOutput := false, printedError := true }

/-- The `__main__` block of `create_answer_key.py` plus the guard clauses of
`generate_automatic_key`: missing argument, nonexistent file and the
empty-key case all print and return normally with status 0. -/
def create_answer_key_main (argc : Nat) (fileExists : Bool) (cols : List Column) :
    CliRun :=
  if argc < 2 then { exitCode := 0, wroteOutput := false, printedError := true }
  else if !fileExists then { exitCode := 0, wroteOutput := false, printedError := true }
  else if (keyScan cols).isEmpty then { exitCode := 0, wroteOutput := false, printedError := true }
  else { exitCode := 0, wroteOutput := true, printedError := false }

/-- `main` of `generate_reports.py`: missing argument, nonexistent student
file, no recognized question pair, and a missing name column each call
`sys.exit(1)`; otherwise the reports are generated. -/
def generate_reports_main (argc : Nat) (studentFileExists : Bool) (names : List String)
    (hasNameCol : Bool) : CliRun :=
  if argc < 2 then { exitCode := 1, wroteOutput := false, printedError := true }
  else if !studentFileExists then { exitCode := 1, wroteOutput := false, printedError := true }
  else if (find_question_list names).isEmpty then
    { exitCode := 1, wroteOutput := false, printedError := true }
  else if !hasNameCol then { exitCode := 1, wroteOutput := false, printedError := true }
  else { exitCode := 0, wroteOutput := true, printedError := false }

/-- C7 counterexample: on a table with no recognized question/points pair the
scorer does not abort — it still writes its output file (holding the cleaned
input columns), with only a warning printed. -/
theorem C7_scorer_writes_output_without_groups :
    (scanColumns [{ name := "Q1", cells := [Cell.str "A"] }]).2 = [] ∧
    scorerRun [{ name := "Q1", cells := [Cell.str "A"] }] =
      some [{ name := "Q1", cells := [Cell.str "A"] }] := by decide

/-- C7 amended: with no recognized pair, the key builder and the report
generator abort without producing output (the report generator with exit
status 1), while the scorer still writes an output file consisting of the
scanned input columns. -/
theorem C7_no_groups_behavior (cols : List Column) (names : List String) (b : Bool) :
    (cols ≠ [] → (scanColumns cols).2 = [] →
      scorerRun cols = some (scanColumns cols).1) ∧
    (keyScan cols = [] → create_answer_key_main 2 true cols =
      { exitCode := 0, wroteOutput := false, printedError := true }) ∧
    (find_question_list names = [] → generate_reports_main 2 true names b =
      { exitCode := 1, wroteOutput := false, printedError := true }) := by
  refine ⟨fun hc h2 => ?_, fun hk => ?_, fun hq => ?_⟩
  · have e1 : (scanColumns cols).1.isEmpty = false := by
      cases hh : (scanColumns cols).1 with
      | nil => exact absurd hh (scanColumns_fst_ne_nil hc)
      | cons a b => rfl
    simp [scorerRun, e1, h2]
  · simp [create_answer_key_main, hk]
  · simp [generate_reports_main, hq]

/-- C7 witness: the one-column table and its column name. -/
theorem C7_no_groups_behavior_witness :
    scorerRun [{ name := "Q1", cells := [Cell.str "A"] }] =
      some (scanColumns [{ name := "Q1", cells := [Cell.str "A"] }]).1 ∧
    create_answer_key_main 2 true [{ name := "Q1", cells := [Cell.str "A"] }] =
      { exitCode := 0, wroteOutput := false, printedError := true } ∧
    generate_reports_main 2 true ["Q1"] true =
      { exitCode := 1, wroteOutput := false, printedError := true } :=
  ⟨(C7_no_groups_behavior [{ name := "Q1", cells := [Cell.str "A"] }] ["Q1"] true).1
      (by decide) (by decide),
   (C7_no_groups_behavior [{ name := "Q1", cells := [Cell.str "A"] }] ["Q1"] true).2.1
      (by decide),
   (C7_no_groups_behavior [{ name := "Q1", cells := [Cell.str "A"] }] ["Q1"] true).2.2
      (by decide)⟩

/-- C9 counterexample: called with a missing file argument, the scorer and the
key builder print the usage message but terminate with exit status 0 — the
success indication — contradicting the claimed non-zero failure indication. -/
theorem C9_exit_zero_on_error_paths :
    calculate_grades_main 1 true [] =
      { exitCode := 0, wroteOutput := false, printedError := true } ∧
    create_answer_key_main 1 true [] =
      { exitCode := 0, wroteOutput := false, printedError := true } := by decide

/-- C9 amended: on a missing argument or a nonexistent input file every
utility prints a usage/error message and produces no output; the report
generator exits with status 1, but the scorer and the key builder terminate
normally with exit status 0. -/
theorem C9_cli_error_paths (argc : Nat) (cols : List Column) (names : List String)
    (b e : Bool) :
    (argc < 2 →
      calculate_grades_main argc e cols =
        { exitCode := 0, wroteOutput := false, printedError := true } ∧
      create_answer_key_main argc e cols =
        { exitCode := 0, wroteOutput := false, printedError := true } ∧
      generate_reports_main argc e names b =
        { exitCode := 1, wroteOutput := false, printedError := true }) ∧
    (2 ≤ argc →
      calculate_grades_main argc false cols =
        { exitCode := 0, wroteOutput := false, printedError := true } ∧
      create_answer_key_main argc false cols =
        { exitCode := 0, wroteOutput := false, printedError := true } ∧
      generate_reports_main argc false names b =
        { exitCode := 1, wroteOutput := false, printedError := true }) := by
  constructor
  · intro h
    refine ⟨?_, ?_, ?_⟩ <;>
      simp [calculate_grades_main, create_answer_key_main, generate_reports_main, h]
  · intro h
    have h' : ¬(argc < 2) := by omega
    refine ⟨?_, ?_, ?_⟩ <;>
      simp [calculate_grades_main, create_answer_key_main, generate_reports_main, h']

/-- C9 witness: argument counts 1 and 2 with a nonexistent input file. -/
theorem C9_cli_error_paths_witness :
    (calculate_grades_main 1 true [] =
        { exitCode := 0, wroteOutput := false, printedError := true } ∧
      create_answer_key_main 1 true [] =
        { exitCode := 0, wroteOutput := false, printedError := true } ∧
      generate_reports_main 1 true [] true =
        { exitCode := 1, wroteOutput := false, printedError := true }) ∧
    (calculate_grades_main 2 false [] =
        { exitCode := 0, wroteOutput := false, printedError := true } ∧
      create_answer_key_main 2 false [] =
        { exitCode := 0, wroteOutput := false, printedError := true } ∧
      generate_reports_main 2 false [] true =
        { exitCode := 1, wroteOutput := false, printedError := true }) :=
  ⟨(C9_cli_error_paths 1 [] [] true true).1 (by decide),
   (C9_cli_error_paths 2 [] [] true true).2 (by decide)⟩

/-- One-question input table used for the round-trip claim. -/
def tabellaC8 : List Column :=
  [{ name := "Q1", cells := [Cell.str "A"] },
   { name := "Points - Q1", cells := [Cell.num 0] }]

/-- The scorer's output on `tabellaC8`: the wrong answer scores -0.25, the
summed score is -0.25, and the grade is clipped to 0. -/
def primaUscitaC8 : List Column :=
  [{ name := "Q1", cells := [Cell.str "A"] },
   { name := "Points - Q1", cells := [Cell.num 0] },
   { name := "CALCOLO - Q1", cells := [Cell.num (-(1/4))] },
   { name := "Punteggio_Finale_Corretto", cells := [Cell.num (-(1/4))] },
   { name := "Voto_su_10", cells := [Cell.num 0] }]

theorem scorerRun_tabellaC8 : scorerRun tabellaC8 = some primaUscitaC8 := by
  have h1 : cond_vuota (Cell.str "A") = false := by decide
  have h2 : cond_giusta (Cell.num 0) = false := by decide
  have h3 : cond_sbagliata (Cell.str "A") (Cell.num 0) = true := by decide
  have hp : punteggio (Cell.str "A") (Cell.num 0) = -(1/4) := by
    simp [punteggio, h1, h2, h3]
  have hv : voto (-(1/4)) 1 = 0 := voto_nonpos 1 (by norm_num)
  have hv' : voto (-4⁻¹ : ℚ) 1 = 0 := voto_nonpos 1 (by norm_num)
  simp [scorerRun, tabellaC8, primaUscitaC8, scanColumns, numRows, assignColumn,
    sumRow, toNumeric, List.range_succ, PREFISSO_POINTS, PREFISSO_CALCOLO,
    NOME_COLONNA_FINALE, NOME_COLONNA_VOTO, hp, hv, hv']

/-- C8 counterexample: feeding the scorer its own output (a table already
holding the derived columns of a prior run) yields a table in which the
derived-score column name appears twice — the old column is carried through
and a freshly recomputed column with the same name is inserted. -/
theorem C8_rerun_duplicates_calc_column :
    scorerRun tabellaC8 = some primaUscitaC8 ∧
    (((scorerRun primaUscitaC8).getD []).map Column.name).count "CALCOLO - Q1" = 2 :=
  ⟨scorerRun_tabellaC8, by decide⟩

/-- C8 amended: re-running the scorer on its own output duplicates each
derived-score column (old copy carried, identical recomputed copy inserted
next to the pair), while the summed-score and grade columns are overwritten
in place — appearing once each, with their previously computed values. -/
theorem C8_rerun_roundtrip :
    scorerRun tabellaC8 = some primaUscitaC8 ∧
    ((scorerRun primaUscitaC8).getD []).map Column.name =
      ["Q1", "Points - Q1", "CALCOLO - Q1", "CALCOLO - Q1",
       "Punteggio_Finale_Corretto", "Voto_su_10"] ∧
    colValues ((scorerRun primaUscitaC8).getD []) NOME_COLONNA_FINALE =
      some [Cell.num (-(1/4))] ∧
    colValues ((scorerRun primaUscitaC8).getD []) NOME_COLONNA_VOTO =
      some [Cell.num 0] := by
  have h1 : cond_vuota (Cell.str "A") = false := by decide
  have h2 : cond_giusta (Cell.num 0) = false := by decide
  have h3 : cond_sbagliata (Cell.str "A") (Cell.num 0) = true := by decide
  have hp : punteggio (Cell.str "A") (Cell.num 0) = -(1/4) := by
    simp [punteggio, h1, h2, h3]
  have hv : voto (-(1/4)) 1 = 0 := voto_nonpos 1 (by norm_num)
  have hv' : voto (-4⁻¹ : ℚ) 1 = 0 := voto_nonpos 1 (by norm_num)
  refine ⟨scorerRun_tabellaC8, by decide, ?_, ?_⟩ <;>
    simp [scorerRun, primaUscitaC8, scanColumns, numRows, assignColumn, colValues,
      sumRow, toNumeric, List.range_succ, PREFISSO_POINTS, PREFISSO_CALCOLO,
      NOME_COLONNA_FINALE, NOME_COLONNA_VOTO, List.find?, hp, hv, hv']

end MSForms
